import Mathlib

/-!
Verification development for the progress-watchdog reconciliation engine
(src/progress-watchdog/main.go).

The Go program is shallowly embedded: each Go function becomes a Lean
function over explicit inputs standing for the I/O outcomes the function
observes (HTTP responses, Kubernetes API results).  Side effects are made
explicit:

* log calls and outbound calls (fetch / apply / persist) are recorded as
  events in a trace;
* a Go `panic` (including a nil-pointer dereference, which aborts the
  process just like a panic) is recorded as a `panicked := true` flag on
  the result, and the recorded trace stops at the point of the abort;
* Go strings are Lean `String`s; a Go `*string` is `Option String`
  (`nil` is `none`); Go map lookup `m[k]` on a `map[string]string` is
  modelled as association-list lookup defaulting to `""`, matching the Go
  zero-value semantics for missing keys.
-/

namespace ProgressWatchdog

/-- Log levels used by the program (go-logging calls in main.go). -/
inductive LogLevel where
  | debug
  | info
  | warning
  | error
deriving DecidableEq, Repr

/-- Observable events of one worker / one adapter call: log lines and the
outbound calls the watchdog makes (HTTP fetch, HTTP apply, Kubernetes
patch = persist). -/
inductive WEvent where
  | log (level : LogLevel) (msg : String)
  | fetchCall (team : String)
  | applyCall (team : String) (code : String)
  | persistCall (team : String) (code : String)
deriving DecidableEq, Repr

/-- `ProgressUpdateJobs` struct of main.go: team name plus the last
continue code read from the deployment annotation.  In Go the
`LastContinueCode` field is a plain `string`; a missing annotation shows
up as `""` (Go map zero value), so "absent" and "empty string" coincide. -/
structure ProgressUpdateJobs where
  Teamname : String
  LastContinueCode : String
deriving DecidableEq, Repr

/-- Result of reading the HTTP response body in `getCurrentContinueCode`:
`ioutil.ReadAll` may fail, `json.Unmarshal` may fail (carrying the error
text that gets logged), otherwise a `ContinueCodePayload` with its
`continueCode` field (possibly `""`). -/
inductive Body where
  | readError
  | parseError (err : String)
  | payload (continueCode : String)
deriving DecidableEq, Repr

/-- Outcome of the GET request in `getCurrentContinueCode`:
`http.NewRequest` error, `http.DefaultClient.Do` transport error, or a
response with a status code and a body. -/
inductive FetchResponse where
  | requestError (err : String)
  | transportError (err : String)
  | response (status : Nat) (body : Body)
deriving DecidableEq, Repr

/-- URL the watchdog fetches the live continue code from
(main.go line 159). -/
def continueCodeUrl (teamname : String) : String :=
  "http://t-" ++ teamname ++ "-juiceshop:3000/rest/continue-code"

/-- `getCurrentContinueCode` (main.go lines 158-201), as a function of the
observed request outcome.  Returns the parsed code and the log lines it
emits.  Every failure path returns `none` after logging; only status 200
with a parseable body yields `some`.  Note that on a `Do` error the Go
code `return`s before the `defer res.Body.Close()` line, so no nil
dereference happens here (unlike `applyContinueCode`). -/
def getCurrentContinueCode (teamname : String) (r : FetchResponse) :
    Option String × List WEvent :=
  match r with
  | .requestError e =>
      (none, [.log .warning "Failed to create http request",
              .log .warning e])
  | .transportError e =>
      (none, [.log .warning "Failed to fetch continue code from juice shop.",
              .log .warning e])
  | .response status body =>
      if status = 200 then
        match body with
        | .readError =>
            (none, [.log .error "Failed to read response body stream."])
        | .parseError e =>
            (none, [.log .error "Failed to parse json of a challenge status.",
                    .log .error e])
        | .payload c =>
            (some c, [.log .debug ("Got current continue code: " ++ c)])
      else
        (none, [.log .warning
          ("Unexpected response status code " ++ toString status)])

/-- Outcome of the PUT request in `applyContinueCode`:
`http.NewRequest` error (in which case the Go code continues and calls
`Do` on a nil request, which itself returns an error, hence two error
strings), `Do` transport error, or a response with some status code. -/
inductive ApplyResponse where
  | requestError (err1 : String) (err2 : String)
  | transportError (err : String)
  | response (status : Nat)
deriving DecidableEq, Repr

/-- `applyContinueCode` (main.go lines 203-217), as a function of the
observed request outcome.  Returns the log lines it emits and a flag
recording whether the call aborts the process.  The Go code logs `Do`
errors but does NOT return afterwards: it falls through to
`defer res.Body.Close()` with `res == nil`, a nil-pointer dereference
that panics.  On any actual response (any status code, 2xx or not) the
function returns normally and logs nothing: the status is never
inspected. -/
def applyContinueCode (teamname : String) (continueCode : String)
    (r : ApplyResponse) : List WEvent × Bool :=
  match teamname, continueCode, r with
  | _, _, .requestError e1 e2 =>
      ([.log .warning "Failed to create http request to set the current continue code",
        .log .warning e1,
        .log .warning "Failed to set the current continue code to juice shop.",
        .log .warning e2], true)
  | _, _, .transportError e =>
      ([.log .warning "Failed to set the current continue code to juice shop.",
        .log .warning e], true)
  | _, _, .response _ => ([], false)

/-- Innermost annotations object of the merge-patch document
(`UpdateProgressDeploymentDiffAnnotations` in main.go): exactly two
annotation keys are set. -/
structure UpdateProgressDeploymentDiffAnnotations where
  ContinueCode : String
  ChallengesSolved : String
deriving DecidableEq, Repr

/-- `UpdateProgressDeploymentMetadata` of main.go. -/
structure UpdateProgressDeploymentMetadata where
  MetaAnnotations : UpdateProgressDeploymentDiffAnnotations
deriving DecidableEq, Repr

/-- `UpdateProgressDeploymentDiff` of main.go: the whole merge-patch body. -/
structure UpdateProgressDeploymentDiff where
  Metadata : UpdateProgressDeploymentMetadata
deriving DecidableEq, Repr

/-- Outcome of the Kubernetes `Deployments.Patch` call in
`cacheContinueCode`. -/
inductive PatchResult where
  | ok
  | error (err : String)
deriving DecidableEq, Repr

/-- Result of one `cacheContinueCode` call: which deployment was patched,
the merge-patch body sent, the log lines, and whether the call aborted
the process. -/
structure CacheResult where
  patchTarget : String
  patchBody : UpdateProgressDeploymentDiff
  logs : List WEvent
  panicked : Bool
deriving Repr

/-- `cacheContinueCode` (main.go lines 232-256), as a function of the
observed patch outcome.  The merge-patch document always sets the
continue-code annotation to the given code and the challenges-solved
annotation to the constant `"42"`.  A patch error is logged and then the
function panics (`panic("could not patch deployment")`).  (The
`json.Marshal` of this fixed struct shape cannot fail, so its error
branch is unreachable and not given an input here; the marshalled JSON
debug line is represented by the "Json patch" log entry.) -/
def cacheContinueCode (teamname : String) (continueCode : String)
    (pr : PatchResult) : CacheResult :=
  let diff : UpdateProgressDeploymentDiff :=
    { Metadata := { MetaAnnotations :=
        { ContinueCode := continueCode, ChallengesSolved := "42" } } }
  let baseLogs : List WEvent :=
    [.log .info ("Updating continue-code of team " ++ teamname
        ++ " to " ++ continueCode),
     .log .debug "Json patch"]
  match pr with
  | .ok =>
      { patchTarget := "t-" ++ teamname ++ "-juiceshop"
        patchBody := diff
        logs := baseLogs
        panicked := false }
  | .error e =>
      { patchTarget := "t-" ++ teamname ++ "-juiceshop"
        patchBody := diff
        logs := baseLogs ++ [.log .error e]
        panicked := true }

/-- Environment one worker job runs against: the live continue
code at job start, whether each of the (at most two) fetches of this job
succeeds end-to-end (reachable, status 200, parseable body — the worker
only sees the resulting `Option String`), whether the apply PUT returns a
response at all (if not, `applyContinueCode` panics, see its docstring),
and how a delivered apply changes the live code (`applyLive appliedCode
oldLive = newLive`; the identity in the second argument models a non-2xx
apply the server ignored). -/
structure ReconcileEnv where
  live0 : String
  reach1 : Bool
  applyOk : Bool
  applyLive : String → String → String
  reach2 : Bool

/-- Result of running one reconciliation job: the worker-level trace (its
own log lines and its fetch / apply / persist calls; the logs internal to
`getCurrentContinueCode`, `applyContinueCode` and `cacheContinueCode` are
modelled in those functions), the durable annotation value after the job
(`""` meaning absent, as in Go), the live code of the instance after the job,
and whether the job aborted the process. -/
structure JobResult where
  trace : List WEvent
  finalDurable : String
  finalLive : String
  panicked : Bool
deriving DecidableEq, Repr

/-- One iteration of the worker loop body of `workOnProgressUpdates`
(main.go lines 124-155), given the job and the environment; `durable` is
the continue-code annotation of the deployment when the job runs (equal to
`job.LastContinueCode` in honest runs, but passed separately).

Faithful points: the divergence branch applies `lastContinueCode`, then
re-fetches, then calls `cacheContinueCode` on `*currentContinueCode`
WITHOUT a nil check (main.go line 150) — if the re-fetch returned `nil`
the dereference panics, after the "Caching current continue code" debug
line but before any persist call.  If the apply PUT gets no response,
`applyContinueCode` itself panics (main.go line 216) and nothing after
the apply call happens. -/
def runJob (env : ReconcileEnv) (durable : String)
    (job : ProgressUpdateJobs) : JobResult :=
  let team := job.Teamname
  let lastContinueCode := job.LastContinueCode
  let currentContinueCode : Option String :=
    if env.reach1 then some env.live0 else none
  let pre : List WEvent :=
    [.log .debug ("Running ProgressUpdateJob for team " ++ team),
     .log .debug "Fetching cached continue code",
     .log .debug "Fetching current continue code",
     .fetchCall team]
  match currentContinueCode with
  | none =>
      if lastContinueCode = "" then
        { trace := pre ++
            [.log .warning "Failed to fetch both current and cached continue code"]
          finalDurable := durable, finalLive := env.live0, panicked := false }
      else
        { trace := pre ++
            [.log .debug "Could not get current continue code. Juice Shop might be down. Sleeping and retrying in 5 sec"]
          finalDurable := durable, finalLive := env.live0, panicked := false }
  | some cur =>
      if lastContinueCode = "" then
        { trace := pre ++
            [.log .debug "Did not find a cached continue code.",
             .log .debug "Last continue code was nil. This should only happen once per team.",
             .persistCall team cur]
          finalDurable := cur, finalLive := env.live0, panicked := false }
      else if lastContinueCode = cur then
        { trace := pre ++
            [.log .debug "Checking Difference between continue code",
             .log .debug "Continue codes are identical. Sleeping"]
          finalDurable := durable, finalLive := env.live0, panicked := false }
      else
        let diverged : List WEvent := pre ++
          [.log .debug "Checking Difference between continue code",
           .log .debug ("Continue codes differ (last vs current): ("
              ++ lastContinueCode ++ " vs " ++ cur ++ ")"),
           .log .debug "Applying cached continue code",
           .log .info ("Found new continue Code for Team " ++ team),
           .applyCall team lastContinueCode]
        if env.applyOk then
          let live1 := env.applyLive lastContinueCode env.live0
          let refetch : Option String :=
            if env.reach2 then some live1 else none
          match refetch with
          | some cur2 =>
              { trace := diverged ++
                  [.log .debug "ReFetching current continue code",
                   .fetchCall team,
                   .log .debug "Caching current continue code",
                   .persistCall team cur2]
                finalDurable := cur2, finalLive := live1, panicked := false }
          | none =>
              { trace := diverged ++
                  [.log .debug "ReFetching current continue code",
                   .fetchCall team,
                   .log .debug "Caching current continue code"]
                finalDurable := durable, finalLive := live1, panicked := true }
        else
          { trace := diverged, finalDurable := durable
            finalLive := env.live0, panicked := true }

/-- A Kubernetes deployment as the discovery loop sees it: the label map,
the annotation map (both association lists; Go map lookup of a missing
key yields `""`), and `Status.ReadyReplicas`. -/
structure Deployment where
  Labels : List (String × String)
  DeployAnnotations : List (String × String)
  ReadyReplicas : Int
deriving DecidableEq, Repr

/-- Go map read `m[k]` on a `map[string]string`: the value, or the zero
value `""` when the key is missing. -/
def mapGet (m : List (String × String)) (k : String) : String :=
  (m.lookup k).getD ""

/-- The annotation key holding the durable continue code. -/
def continueCodeAnnotationKey : String :=
  "multi-juicer.iteratec.dev/continueCode"

/-- Job construction inside `createProgressUpdateJobs`
(main.go lines 114-117). -/
def mkProgressUpdateJob (d : Deployment) : ProgressUpdateJobs :=
  { Teamname := mapGet d.Labels "team"
    LastContinueCode := mapGet d.DeployAnnotations continueCodeAnnotationKey }

/-- The jobs one discovery iteration emits (main.go lines 105-118): skip
any deployment whose `ReadyReplicas` is not exactly 1, emit one job for
each of the rest. -/
def jobsForInstances (items : List Deployment) : List ProgressUpdateJobs :=
  (items.filter (fun d => d.ReadyReplicas = 1)).map mkProgressUpdateJob

/-- Outcome of the `Deployments("default").List` call in
`createProgressUpdateJobs`. -/
inductive ListDeploymentsResult where
  | ok (items : List Deployment)
  | error (err : String)
deriving Repr

/-- One iteration of `createProgressUpdateJobs` (main.go lines 91-120):
on a list error the process panics (`panic(err.Error())`, line 100);
otherwise the ready instances become jobs.  Returns the emitted jobs and
the panic flag. -/
def createProgressUpdateJobsStep (lr : ListDeploymentsResult) :
    List ProgressUpdateJobs × Bool :=
  match lr with
  | .error _ => ([], true)
  | .ok items => (jobsForInstances items, false)

/-- The apply calls in a trace. -/
def applyCalls (tr : List WEvent) : List WEvent :=
  tr.filter (fun e => match e with | .applyCall _ _ => true | _ => false)

/-- The persist calls in a trace. -/
def persistCalls (tr : List WEvent) : List WEvent :=
  tr.filter (fun e => match e with | .persistCall _ _ => true | _ => false)

/-- The fetch calls in a trace. -/
def fetchCalls (tr : List WEvent) : List WEvent :=
  tr.filter (fun e => match e with | .fetchCall _ => true | _ => false)

/-- Claim C6: for every job whose `lastContinueCode` is absent (i.e. `""`,
since Go cannot distinguish a missing annotation from an empty one) and
whose live fetch returns a present value, the worker persists exactly the
fetched live value as the new durable value and issues no apply call. -/
theorem c6_first_observation_persists_current (env : ReconcileEnv)
    (durable : String) (job : ProgressUpdateJobs)
    (hlast : job.LastContinueCode = "") (hreach : env.reach1 = true) :
    runJob env durable job =
      { trace :=
          [.log .debug ("Running ProgressUpdateJob for team " ++ job.Teamname),
           .log .debug "Fetching cached continue code",
           .log .debug "Fetching current continue code",
           .fetchCall job.Teamname,
           .log .debug "Did not find a cached continue code.",
           .log .debug "Last continue code was nil. This should only happen once per team.",
           .persistCall job.Teamname env.live0]
        finalDurable := env.live0
        finalLive := env.live0
        panicked := false } ∧
    applyCalls (runJob env durable job).trace = [] ∧
    persistCalls (runJob env durable job).trace =
      [.persistCall job.Teamname env.live0] := by
  simp [runJob, hlast, hreach, applyCalls, persistCalls]

/-- Witness for C6 at the end-to-end scenario for team "alpha": no durable
annotation, live fetch returns "abc123". -/
theorem c6_first_observation_persists_current_witness :
    runJob ⟨"abc123", true, true, fun c _ => c, true⟩ "" ⟨"alpha", ""⟩ =
      { trace :=
          [.log .debug "Running ProgressUpdateJob for team alpha",
           .log .debug "Fetching cached continue code",
           .log .debug "Fetching current continue code",
           .fetchCall "alpha",
           .log .debug "Did not find a cached continue code.",
           .log .debug "Last continue code was nil. This should only happen once per team.",
           .persistCall "alpha" "abc123"]
        finalDurable := "abc123"
        finalLive := "abc123"
        panicked := false } ∧
    applyCalls (runJob ⟨"abc123", true, true, fun c _ => c, true⟩ ""
      ⟨"alpha", ""⟩).trace = [] ∧
    persistCalls (runJob ⟨"abc123", true, true, fun c _ => c, true⟩ ""
      ⟨"alpha", ""⟩).trace = [.persistCall "alpha" "abc123"] :=
  c6_first_observation_persists_current
    ⟨"abc123", true, true, fun c _ => c, true⟩ "" ⟨"alpha", ""⟩ rfl rfl

/-- Claim C7: for every job whose `lastContinueCode` is present but whose
live fetch returns absent, the worker performs no persist and no apply
call, logs the failure (a debug line saying the Juice Shop might be
down), leaves the durable annotation unchanged, and returns normally. -/
theorem c7_unreachable_instance_no_action (env : ReconcileEnv)
    (durable : String) (job : ProgressUpdateJobs)
    (hlast : job.LastContinueCode ≠ "") (hreach : env.reach1 = false) :
    persistCalls (runJob env durable job).trace = [] ∧
    applyCalls (runJob env durable job).trace = [] ∧
    WEvent.log .debug
        "Could not get current continue code. Juice Shop might be down. Sleeping and retrying in 5 sec"
      ∈ (runJob env durable job).trace ∧
    (runJob env durable job).finalDurable = durable ∧
    (runJob env durable job).panicked = false := by
  simp [runJob, hlast, hreach, applyCalls, persistCalls]

/-- Witness for C7 at the end-to-end scenario for team "delta": durable
code present, live fetch fails. -/
theorem c7_unreachable_instance_no_action_witness :
    persistCalls (runJob ⟨"x", false, true, fun c _ => c, true⟩ "code1"
      ⟨"delta", "code1"⟩).trace = [] ∧
    applyCalls (runJob ⟨"x", false, true, fun c _ => c, true⟩ "code1"
      ⟨"delta", "code1"⟩).trace = [] ∧
    WEvent.log .debug
        "Could not get current continue code. Juice Shop might be down. Sleeping and retrying in 5 sec"
      ∈ (runJob ⟨"x", false, true, fun c _ => c, true⟩ "code1"
          ⟨"delta", "code1"⟩).trace ∧
    (runJob ⟨"x", false, true, fun c _ => c, true⟩ "code1"
      ⟨"delta", "code1"⟩).finalDurable = "code1" ∧
    (runJob ⟨"x", false, true, fun c _ => c, true⟩ "code1"
      ⟨"delta", "code1"⟩).panicked = false :=
  c7_unreachable_instance_no_action
    ⟨"x", false, true, fun c _ => c, true⟩ "code1" ⟨"delta", "code1"⟩
    (by decide) rfl

/-- Claim C1 (amended): for every job whose `lastContinueCode` is present,
whose live fetch returns a present value differing from it, whose apply
PUT obtains a response, and whose post-apply re-fetch returns a present
value, the worker issues exactly one apply call with payload
`lastContinueCode`, then exactly one further live fetch, then exactly one
persist of whatever that re-fetch returned, and no other apply or persist
calls.  (The original claim omitted the last two provisos; see the
counterexample: if the re-fetch returns absent, or the apply PUT gets no
response, the worker panics and no persist happens.) -/
theorem c1_divergence_apply_refetch_persist (env : ReconcileEnv)
    (durable : String) (job : ProgressUpdateJobs)
    (hlast : job.LastContinueCode ≠ "")
    (hreach1 : env.reach1 = true)
    (hdiff : job.LastContinueCode ≠ env.live0)
    (happly : env.applyOk = true)
    (hreach2 : env.reach2 = true) :
    runJob env durable job =
      { trace :=
          [.log .debug ("Running ProgressUpdateJob for team " ++ job.Teamname),
           .log .debug "Fetching cached continue code",
           .log .debug "Fetching current continue code",
           .fetchCall job.Teamname,
           .log .debug "Checking Difference between continue code",
           .log .debug ("Continue codes differ (last vs current): ("
              ++ job.LastContinueCode ++ " vs " ++ env.live0 ++ ")"),
           .log .debug "Applying cached continue code",
           .log .info ("Found new continue Code for Team " ++ job.Teamname),
           .applyCall job.Teamname job.LastContinueCode,
           .log .debug "ReFetching current continue code",
           .fetchCall job.Teamname,
           .log .debug "Caching current continue code",
           .persistCall job.Teamname
             (env.applyLive job.LastContinueCode env.live0)]
        finalDurable := env.applyLive job.LastContinueCode env.live0
        finalLive := env.applyLive job.LastContinueCode env.live0
        panicked := false } ∧
    applyCalls (runJob env durable job).trace =
      [.applyCall job.Teamname job.LastContinueCode] ∧
    fetchCalls (runJob env durable job).trace =
      [.fetchCall job.Teamname, .fetchCall job.Teamname] ∧
    persistCalls (runJob env durable job).trace =
      [.persistCall job.Teamname
        (env.applyLive job.LastContinueCode env.live0)] := by
  simp [runJob, hlast, hreach1, hdiff, happly, hreach2,
    applyCalls, fetchCalls, persistCalls]

/-- Witness for C1 at the end-to-end scenario for team "beta": durable
"old1", live "new2", and the instance applies the pushed code exactly, so
the re-fetch returns "old1" and "old1" is persisted. -/
theorem c1_divergence_apply_refetch_persist_witness :
    runJob ⟨"new2", true, true, fun c _ => c, true⟩ "old1"
        ⟨"beta", "old1"⟩ =
      { trace :=
          [.log .debug "Running ProgressUpdateJob for team beta",
           .log .debug "Fetching cached continue code",
           .log .debug "Fetching current continue code",
           .fetchCall "beta",
           .log .debug "Checking Difference between continue code",
           .log .debug "Continue codes differ (last vs current): (old1 vs new2)",
           .log .debug "Applying cached continue code",
           .log .info "Found new continue Code for Team beta",
           .applyCall "beta" "old1",
           .log .debug "ReFetching current continue code",
           .fetchCall "beta",
           .log .debug "Caching current continue code",
           .persistCall "beta" "old1"]
        finalDurable := "old1"
        finalLive := "old1"
        panicked := false } ∧
    applyCalls (runJob ⟨"new2", true, true, fun c _ => c, true⟩ "old1"
      ⟨"beta", "old1"⟩).trace = [.applyCall "beta" "old1"] ∧
    fetchCalls (runJob ⟨"new2", true, true, fun c _ => c, true⟩ "old1"
      ⟨"beta", "old1"⟩).trace = [.fetchCall "beta", .fetchCall "beta"] ∧
    persistCalls (runJob ⟨"new2", true, true, fun c _ => c, true⟩ "old1"
      ⟨"beta", "old1"⟩).trace = [.persistCall "beta" "old1"] :=
  c1_divergence_apply_refetch_persist
    ⟨"new2", true, true, fun c _ => c, true⟩ "old1" ⟨"beta", "old1"⟩
    (by decide) rfl (by decide) rfl rfl

/-- Counterexample to C1 as stated: two jobs that satisfy all of the
preconditions of the claim (last present, first fetch present, values differ)
yet end without any persist call.  First input: the post-apply re-fetch
returns absent, so the worker panics after the second fetch and persists
nothing.  Second input: the apply PUT gets no response, so
`applyContinueCode` panics and not even the second fetch happens. -/
theorem c1_divergence_counterexample :
    ((("old1" : String) ≠ "" ∧
        (⟨"new2", true, true, fun c _ => c, false⟩ : ReconcileEnv).reach1 = true ∧
        ("old1" : String) ≠ "new2") ∧
      persistCalls (runJob ⟨"new2", true, true, fun c _ => c, false⟩ "old1"
        ⟨"beta", "old1"⟩).trace = [] ∧
      (runJob ⟨"new2", true, true, fun c _ => c, false⟩ "old1"
        ⟨"beta", "old1"⟩).panicked = true) ∧
    (persistCalls (runJob ⟨"new2", true, false, fun c _ => c, true⟩ "old1"
        ⟨"beta", "old1"⟩).trace = [] ∧
      fetchCalls (runJob ⟨"new2", true, false, fun c _ => c, true⟩ "old1"
        ⟨"beta", "old1"⟩).trace = [.fetchCall "beta"] ∧
      (runJob ⟨"new2", true, false, fun c _ => c, true⟩ "old1"
        ⟨"beta", "old1"⟩).panicked = true) := by
  decide

/-- Claim C4: in the divergence branch, if the re-fetch after the apply
call returns absent, the worker dereferences the nil pointer
(`*currentContinueCode`, main.go line 150) and panics — no persist call
is made and the loop does not continue. -/
theorem c4_refetch_nil_dereference_panics (env : ReconcileEnv)
    (durable : String) (job : ProgressUpdateJobs)
    (hlast : job.LastContinueCode ≠ "")
    (hreach1 : env.reach1 = true)
    (hdiff : job.LastContinueCode ≠ env.live0)
    (happly : env.applyOk = true)
    (hreach2 : env.reach2 = false) :
    (runJob env durable job).panicked = true ∧
    persistCalls (runJob env durable job).trace = [] ∧
    applyCalls (runJob env durable job).trace =
      [.applyCall job.Teamname job.LastContinueCode] := by
  simp [runJob, hlast, hreach1, hdiff, happly, hreach2,
    applyCalls, persistCalls]

/-- Witness for C4: team "beta", durable "old1", live "new2", re-fetch
fails. -/
theorem c4_refetch_nil_dereference_panics_witness :
    (runJob ⟨"new2", true, true, fun _ l => l, false⟩ "old1"
      ⟨"beta", "old1"⟩).panicked = true ∧
    persistCalls (runJob ⟨"new2", true, true, fun _ l => l, false⟩ "old1"
      ⟨"beta", "old1"⟩).trace = [] ∧
    applyCalls (runJob ⟨"new2", true, true, fun _ l => l, false⟩ "old1"
      ⟨"beta", "old1"⟩).trace = [.applyCall "beta" "old1"] :=
  c4_refetch_nil_dereference_panics
    ⟨"new2", true, true, fun _ l => l, false⟩ "old1" ⟨"beta", "old1"⟩
    (by decide) rfl (by decide) rfl rfl

/-- Claim C2: after a worker completes one reconciliation job without the
process aborting, and given that the `lastContinueCode` snapshot of the job
matches the durable annotation, either the durable annotation equals the
live value the instance reports, or the first live fetch returned absent
(unreachable instance) and the durable annotation is unchanged. -/
theorem c2_durable_equals_live_after_job (env : ReconcileEnv)
    (durable : String) (job : ProgressUpdateJobs)
    (hjob : job.LastContinueCode = durable)
    (hok : (runJob env durable job).panicked = false) :
    (runJob env durable job).finalDurable = (runJob env durable job).finalLive ∨
    (env.reach1 = false ∧ (runJob env durable job).finalDurable = durable) := by
  by_cases h1 : env.reach1 = true
  · by_cases hl : job.LastContinueCode = ""
    · left
      simp [runJob, hl, h1]
    · by_cases he : job.LastContinueCode = env.live0
      · left
        have hl2 : env.live0 ≠ "" := he ▸ hl
        simp [runJob, h1, hl, he, hl2]
        exact hjob.symm.trans he
      · by_cases ha : env.applyOk = true
        · by_cases h2 : env.reach2 = true
          · left
            simp [runJob, hl, h1, he, ha, h2]
          · exfalso
            simp [runJob, hl, h1, he, ha, h2] at hok
        · exfalso
          simp [runJob, hl, h1, he, ha] at hok
  · right
    refine ⟨by simpa using h1, ?_⟩
    by_cases hl : job.LastContinueCode = ""
    · simp [runJob, hl, h1]
    · simp [runJob, hl, h1]

/-- Witness for C2 at the end-to-end scenario for team "gamma": durable
and live both "same"; the job completes without abort and durable still
equals live. -/
theorem c2_durable_equals_live_after_job_witness :
    (runJob ⟨"same", true, true, fun c _ => c, true⟩ "same"
        ⟨"gamma", "same"⟩).finalDurable =
      (runJob ⟨"same", true, true, fun c _ => c, true⟩ "same"
        ⟨"gamma", "same"⟩).finalLive ∨
    ((⟨"same", true, true, fun c _ => c, true⟩ : ReconcileEnv).reach1 = false ∧
      (runJob ⟨"same", true, true, fun c _ => c, true⟩ "same"
        ⟨"gamma", "same"⟩).finalDurable = "same") :=
  c2_durable_equals_live_after_job
    ⟨"same", true, true, fun c _ => c, true⟩ "same" ⟨"gamma", "same"⟩
    rfl rfl

/-- Claim C5: `getCurrentContinueCode` returns the parsed code exactly on
a 200 response with a parseable body, and returns `none` — normally, with
the failure logged — on a request-construction error, a transport error,
a body-read error, a JSON-parse error, and any non-200 status. -/
theorem c5_fetch_live_code_case_analysis (t c e : String) (s : Nat)
    (b : Body) (hs : s ≠ 200) :
    getCurrentContinueCode t (.response 200 (.payload c)) =
      (some c, [.log .debug ("Got current continue code: " ++ c)]) ∧
    getCurrentContinueCode t (.requestError e) =
      (none, [.log .warning "Failed to create http request",
              .log .warning e]) ∧
    getCurrentContinueCode t (.transportError e) =
      (none, [.log .warning "Failed to fetch continue code from juice shop.",
              .log .warning e]) ∧
    getCurrentContinueCode t (.response 200 .readError) =
      (none, [.log .error "Failed to read response body stream."]) ∧
    getCurrentContinueCode t (.response 200 (.parseError e)) =
      (none, [.log .error "Failed to parse json of a challenge status.",
              .log .error e]) ∧
    getCurrentContinueCode t (.response s b) =
      (none, [.log .warning
        ("Unexpected response status code " ++ toString s)]) := by
  refine ⟨rfl, rfl, rfl, rfl, rfl, ?_⟩
  simp [getCurrentContinueCode, hs]

/-- Witness for C5 with a 500 status as the non-200 case. -/
theorem c5_fetch_live_code_case_analysis_witness :
    getCurrentContinueCode "alpha" (.response 200 (.payload "abc123")) =
      (some "abc123",
       [.log .debug ("Got current continue code: " ++ "abc123")]) ∧
    getCurrentContinueCode "alpha" (.requestError "bad url") =
      (none, [.log .warning "Failed to create http request",
              .log .warning "bad url"]) ∧
    getCurrentContinueCode "alpha" (.transportError "bad url") =
      (none, [.log .warning "Failed to fetch continue code from juice shop.",
              .log .warning "bad url"]) ∧
    getCurrentContinueCode "alpha" (.response 200 .readError) =
      (none, [.log .error "Failed to read response body stream."]) ∧
    getCurrentContinueCode "alpha" (.response 200 (.parseError "bad url")) =
      (none, [.log .error "Failed to parse json of a challenge status.",
              .log .error "bad url"]) ∧
    getCurrentContinueCode "alpha" (.response 500 .readError) =
      (none, [.log .warning
        ("Unexpected response status code " ++ toString 500)]) :=
  c5_fetch_live_code_case_analysis "alpha" "abc123" "bad url" 500
    .readError (by decide)

/-- Claim C3 does not hold as stated: on a transport error during the
apply PUT, `applyContinueCode` logs the failure but then falls into
`defer res.Body.Close()` with a nil `res` (main.go line 216) and panics,
terminating the process; it does not return to the caller.  (The
response case — any status, 2xx or not — does return normally, but the
status is never inspected or logged.)  This theorem evaluates the
embedded function at the failing inputs. -/
theorem c3_apply_transport_error_panics :
    (applyContinueCode "alpha" "abc123"
      (.transportError "connection refused")).2 = true ∧
    (applyContinueCode "alpha" "abc123"
      (.transportError "connection refused")).1 =
      [.log .warning "Failed to set the current continue code to juice shop.",
       .log .warning "connection refused"] ∧
    (applyContinueCode "alpha" "abc123"
      (.requestError "bad request" "nil request")).2 = true ∧
    (applyContinueCode "alpha" "abc123" (.response 500)).2 = false ∧
    (applyContinueCode "alpha" "abc123" (.response 500)).1 = [] ∧
    (applyContinueCode "alpha" "abc123" (.response 200)).2 = false := by
  decide

/-- Claim C8: a fleet-directory list error in the discovery loop and a
patch error in the persist operation each terminate the whole process
(panic), while their success cases do not. -/
theorem c8_list_and_patch_failures_fatal (e t c : String)
    (items : List Deployment) :
    (createProgressUpdateJobsStep (.error e)).2 = true ∧
    (cacheContinueCode t c (.error e)).panicked = true ∧
    (createProgressUpdateJobsStep (.ok items)).2 = false ∧
    (cacheContinueCode t c .ok).panicked = false := by
  exact ⟨rfl, rfl, rfl, rfl⟩

/-- Claim C9: for every team and continue code, and regardless of the
patch outcome, the merge-patch body of the persist operation sets exactly the
two annotations: the continue code to the given code, and the
solved-challenge count always to the fixed placeholder "42". -/
theorem c9_patch_sets_exactly_two_fixed_annotations (t c : String)
    (pr : PatchResult) :
    (cacheContinueCode t c pr).patchBody =
      { Metadata := { MetaAnnotations :=
          { ContinueCode := c, ChallengesSolved := "42" } } } ∧
    (cacheContinueCode t c pr).patchTarget = "t-" ++ t ++ "-juiceshop" := by
  cases pr
  · exact ⟨rfl, rfl⟩
  · exact ⟨rfl, rfl⟩

/-- Claim C10: the worker cannot distinguish an absent durable value from
an empty-string one.  A deployment whose continue-code annotation is
missing and one whose annotation is `""` yield identical jobs (Go map
lookup returns the zero value `""` for a missing key) and hence identical
worker behaviour; any job with `lastContinueCode = ""` takes one of the
two last-absent branches (warn when the fetch fails, persist-current when
it succeeds); and a 200 response whose `continueCode` field is `""`
parses to a present value. -/
theorem c10_absent_vs_empty_string_indistinguishable
    (d1 d2 : Deployment) (env : ReconcileEnv) (durable : String)
    (job : ProgressUpdateJobs)
    (hlab : d1.Labels = d2.Labels)
    (h1 : d1.DeployAnnotations.lookup continueCodeAnnotationKey = none)
    (h2 : d2.DeployAnnotations.lookup continueCodeAnnotationKey = some "")
    (hjob : job.LastContinueCode = "") :
    mkProgressUpdateJob d1 = mkProgressUpdateJob d2 ∧
    runJob env durable (mkProgressUpdateJob d1) =
      runJob env durable (mkProgressUpdateJob d2) ∧
    runJob env durable job =
      (if env.reach1 then
        { trace :=
            [.log .debug ("Running ProgressUpdateJob for team " ++ job.Teamname),
             .log .debug "Fetching cached continue code",
             .log .debug "Fetching current continue code",
             .fetchCall job.Teamname,
             .log .debug "Did not find a cached continue code.",
             .log .debug "Last continue code was nil. This should only happen once per team.",
             .persistCall job.Teamname env.live0]
          finalDurable := env.live0
          finalLive := env.live0
          panicked := false }
      else
        { trace :=
            [.log .debug ("Running ProgressUpdateJob for team " ++ job.Teamname),
             .log .debug "Fetching cached continue code",
             .log .debug "Fetching current continue code",
             .fetchCall job.Teamname,
             .log .warning "Failed to fetch both current and cached continue code"]
          finalDurable := durable
          finalLive := env.live0
          panicked := false }) ∧
    (getCurrentContinueCode job.Teamname (.response 200 (.payload ""))).1 =
      some "" := by
  have hj : mkProgressUpdateJob d1 = mkProgressUpdateJob d2 := by
    simp [mkProgressUpdateJob, mapGet, hlab, h1, h2]
  refine ⟨hj, by rw [hj], ?_, rfl⟩
  by_cases hr : env.reach1 = true
  · simp [runJob, hjob, hr]
  · simp [runJob, hjob, hr]

/-- Witness for C10: team "alpha" with a missing annotation versus an
explicit empty-string annotation, against a reachable instance whose
live code is "cc1". -/
theorem c10_absent_vs_empty_string_indistinguishable_witness :
    mkProgressUpdateJob ⟨[("team", "alpha")], [], 1⟩ =
      mkProgressUpdateJob
        ⟨[("team", "alpha")], [(continueCodeAnnotationKey, "")], 1⟩ ∧
    runJob ⟨"cc1", true, true, fun c _ => c, true⟩ ""
        (mkProgressUpdateJob ⟨[("team", "alpha")], [], 1⟩) =
      runJob ⟨"cc1", true, true, fun c _ => c, true⟩ ""
        (mkProgressUpdateJob
          ⟨[("team", "alpha")], [(continueCodeAnnotationKey, "")], 1⟩) ∧
    runJob ⟨"cc1", true, true, fun c _ => c, true⟩ "" ⟨"alpha", ""⟩ =
      (if (⟨"cc1", true, true, fun c _ => c, true⟩ : ReconcileEnv).reach1 then
        { trace :=
            [.log .debug ("Running ProgressUpdateJob for team " ++ "alpha"),
             .log .debug "Fetching cached continue code",
             .log .debug "Fetching current continue code",
             .fetchCall "alpha",
             .log .debug "Did not find a cached continue code.",
             .log .debug "Last continue code was nil. This should only happen once per team.",
             .persistCall "alpha" "cc1"]
          finalDurable := "cc1"
          finalLive := "cc1"
          panicked := false }
      else
        { trace :=
            [.log .debug ("Running ProgressUpdateJob for team " ++ "alpha"),
             .log .debug "Fetching cached continue code",
             .log .debug "Fetching current continue code",
             .fetchCall "alpha",
             .log .warning "Failed to fetch both current and cached continue code"]
          finalDurable := ""
          finalLive := "cc1"
          panicked := false }) ∧
    (getCurrentContinueCode "alpha" (.response 200 (.payload ""))).1 =
      some "" :=
  c10_absent_vs_empty_string_indistinguishable
    ⟨[("team", "alpha")], [], 1⟩
    ⟨[("team", "alpha")], [(continueCodeAnnotationKey, "")], 1⟩
    ⟨"cc1", true, true, fun c _ => c, true⟩ "" ⟨"alpha", ""⟩
    rfl (by decide) (by decide) rfl

end ProgressWatchdog
